import Mathlib

/-!
Verification of the AI-Powered-Itinerary-Generator worker (src/src/index.js).

The development shallowly embeds the data model and the operations of the
worker: the Zod itinerary schemas, the post-parse validation inside
`generateItinerary`, the retry/backoff machinery (`calculateDelay`,
`getAccessToken`, the retry classifier of `generateItinerary`), the
Firestore marshalling (`createFirestoreDocument` / `updateFirestoreDocument`
write shapes and `convertFromFirestoreFormat`), the background task
`processItineraryGeneration`, and the synchronous part of the HTTP `fetch`
handler.  Strings, integers and lists are modelled directly; JavaScript
numbers appearing in request bodies are modelled as rationals so that
`Number.isInteger` is expressible; fallible operations return `Except`.
-/

namespace ItineraryWorker

/-- An activity record, as validated by `ActivitySchema` (index.js lines 4-8). -/
structure Activity where
  time : String
  description : String
  location : String
deriving Repr, DecidableEq

/-- A day record, as validated by `DaySchema` (index.js lines 10-14).
`day` is a JS number constrained by the schema to be a positive integer,
so it is modelled as `Int` with the positivity check in the schema. -/
structure ItinDay where
  day : Int
  theme : String
  activities : List Activity
deriving Repr, DecidableEq

/-- `ActivitySchema` (index.js lines 4-8): non-empty `time`, `description` of
length at least 10, non-empty `location`. -/
def activityParse (a : Activity) : Bool :=
  1 ≤ a.time.length && 10 ≤ a.description.length && 1 ≤ a.location.length

/-- `DaySchema` (index.js lines 10-14): positive integer `day`, non-empty
`theme`, at least one activity, each activity valid. -/
def dayParse (d : ItinDay) : Bool :=
  0 < d.day && 1 ≤ d.theme.length && 1 ≤ d.activities.length
    && d.activities.all activityParse

/-- `ItinerarySchema` (index.js line 16): a non-empty array of valid days. -/
def itinerarySchemaParse (it : List ItinDay) : Bool :=
  1 ≤ it.length && it.all dayParse

/-- The day-sequence loop of `generateItinerary` (index.js lines 386-390):
walk the validated itinerary with 0-based index `i` and throw at the first
position where `day` differs from `i+1`. -/
def daySeqCheck : Nat → List ItinDay → Except String Unit
  | _, [] => .ok ()
  | i, d :: rest =>
    if d.day = (i : Int) + 1 then daySeqCheck (i + 1) rest
    else .error ("Day sequence error: expected day " ++ toString (i + 1)
      ++ ", got day " ++ toString d.day)

/-- The validation stage of `generateItinerary` (index.js lines 377-401):
Zod `ItinerarySchema.parse`, then the exact day-count check, then the
day-sequence check; the first failure wins.  The text of the Zod issue list
is abstracted to a fixed diagnostic; the other two messages are the exact
strings thrown by the code. -/
def validateItinerary (it : List ItinDay) (durationDays : Nat) :
    Except String (List ItinDay) :=
  if ¬ itinerarySchemaParse it then
    .error "Validation failed: schema violation"
  else if it.length ≠ durationDays then
    .error ("Expected " ++ toString durationDays ++ " days, got "
      ++ toString it.length ++ " days")
  else
    match daySeqCheck 0 it with
    | .error m => .error m
    | .ok _ => .ok it

/-- Whether an `Except` result is a failure. -/
def isError : Except String α → Bool
  | .error _ => true
  | .ok _ => false

/-- A fully valid sample activity (description well above every floor). -/
def actLong : Activity :=
  { time := "Morning", description := "A wonderful guided walk", location := "Louvre" }

/-- An activity whose description has length 11: it passes the schema floor of
10 that the code enforces but is below the 20 the spec asks for. -/
def actShort : Activity :=
  { time := "Morning", description := "A fine walk", location := "Louvre" }

/-- A one-day candidate whose only activity has an 11-character description. -/
def shortDescItinerary : List ItinDay :=
  [{ day := 1, theme := "Old town", activities := [actShort] }]

/-- The spec's day-sequence counterexample: days labelled 1 and 3 for an
expected duration of 2. -/
def gapDayItinerary : List ItinDay :=
  [{ day := 1, theme := "T1", activities := [actLong] },
   { day := 3, theme := "T2", activities := [actLong] }]

/-- A valid one-day candidate. -/
def oneDayItinerary : List ItinDay :=
  [{ day := 1, theme := "T1", activities := [actLong] }]

theorem itinerarySchemaParse_all_desc {it : List ItinDay}
    (h : itinerarySchemaParse it = true) :
    ∀ d ∈ it, ∀ a ∈ d.activities, 10 ≤ a.description.length := by
  intro d hd a ha
  simp only [itinerarySchemaParse, Bool.and_eq_true, List.all_eq_true] at h
  have hday := h.2 d hd
  simp only [dayParse, Bool.and_eq_true, List.all_eq_true] at hday
  have hact := hday.2 a ha
  simp only [activityParse, Bool.and_eq_true, decide_eq_true_eq] at hact
  exact hact.1.2

theorem daySeqCheck_ok :
    ∀ (it : List ItinDay) (k : Nat), daySeqCheck k it = .ok () →
      ∀ i (h : i < it.length), (it.get ⟨i, h⟩).day = ((k + i : Nat) : Int) + 1 := by
  intro it
  induction it with
  | nil => intro k _ i h; simp at h
  | cons d rest ih =>
    intro k hok i h
    by_cases hd : d.day = (k : Int) + 1
    · rw [daySeqCheck, if_pos hd] at hok
      match i with
      | 0 => simpa using hd
      | Nat.succ j =>
        have := ih (k + 1) hok j (by simpa using Nat.lt_of_succ_lt_succ h)
        simp only [List.get] at this ⊢
        rw [this]
        push_cast
        ring
    · rw [daySeqCheck, if_neg hd] at hok
      exact absurd hok (by simp)

/-- C2 counterexample: the claim "validation fails whenever some activity's
description has length < 20" is false — `shortDescItinerary` contains an
activity whose description has length 11 < 20, yet `validateItinerary`
accepts it (the code's `ActivitySchema` floor is 10, not 20). -/
theorem C2_counterexample :
    actShort.description.length < 20
      ∧ actShort ∈ (shortDescItinerary.get ⟨0, by decide⟩).activities
      ∧ validateItinerary shortDescItinerary 1 = .ok shortDescItinerary := by
  refine ⟨by decide, by decide, by rfl⟩

/-- C2 (amended): the validation pipeline rejects any candidate containing an
activity whose description is shorter than 10 characters — the floor the code
actually enforces via `ActivitySchema`. -/
theorem C2_description_floor_ten :
    ∀ (it : List ItinDay) (n : Nat) (d : ItinDay) (a : Activity),
      d ∈ it → a ∈ d.activities → a.description.length < 10 →
      isError (validateItinerary it n) = true := by
  intro it n d a hd ha hlen
  have hschema : itinerarySchemaParse it = false := by
    cases hp : itinerarySchemaParse it with
    | false => rfl
    | true =>
      have := itinerarySchemaParse_all_desc hp d hd a ha
      omega
  rw [validateItinerary, if_pos (by simp [hschema])]
  rfl

/-- C2 witness: a concrete candidate with a 5-character description is
rejected. -/
theorem C2_description_floor_ten_witness :
    isError (validateItinerary
      [{ day := 1, theme := "T1",
         activities := [{ time := "Morning", description := "Walk", location := "Louvre" }] }] 1)
      = true :=
  C2_description_floor_ten
    [{ day := 1, theme := "T1",
       activities := [{ time := "Morning", description := "Walk", location := "Louvre" }] }]
    1
    { day := 1, theme := "T1",
      activities := [{ time := "Morning", description := "Walk", location := "Louvre" }] }
    { time := "Morning", description := "Walk", location := "Louvre" }
    (by decide) (by decide) (by decide)

/-- C4: validation succeeds only when the candidate has exactly the expected
number of days and each day's `day` field equals its (1-based) position; and
the concrete candidate with days `[1,3]` for `expectedDays = 2` fails with
the day-sequence error message. -/
theorem C4_day_mirror :
    (∀ (it : List ItinDay) (n : Nat) (v : List ItinDay),
        validateItinerary it n = .ok v →
        it.length = n ∧ ∀ i (h : i < it.length), (it.get ⟨i, h⟩).day = (i : Int) + 1)
    ∧ validateItinerary gapDayItinerary 2
        = .error "Day sequence error: expected day 2, got day 3" := by
  constructor
  · intro it n v hok
    rw [validateItinerary] at hok
    by_cases hs : itinerarySchemaParse it
    · rw [if_neg (by simp [hs])] at hok
      by_cases hl : it.length = n
      · rw [if_neg (by simp [hl])] at hok
        refine ⟨hl, ?_⟩
        intro i h
        match hseq : daySeqCheck 0 it with
        | .error m => rw [hseq] at hok; exact absurd hok (by simp)
        | .ok u =>
          have := daySeqCheck_ok it 0 (by rw [hseq]) i h
          simpa using this
      · rw [if_pos (by simp [hl])] at hok
        exact absurd hok (by simp)
    · rw [if_pos (by simp [hs])] at hok
      exact absurd hok (by simp)
  · rfl

/-- C4 witness: applying the only-if direction to a concrete accepted
candidate. -/
theorem C4_day_mirror_witness :
    oneDayItinerary.length = 1
      ∧ (oneDayItinerary.get ⟨0, by decide⟩).day = (0 : Int) + 1 :=
  ⟨(C4_day_mirror.1 oneDayItinerary 1 oneDayItinerary rfl).1,
   (C4_day_mirror.1 oneDayItinerary 1 oneDayItinerary rfl).2 0 (by decide)⟩

/-! ### Retry machinery (index.js lines 18-44, 104-137, 312-424) -/

/-- `RETRY_CONFIG.maxRetries` (index.js line 20). -/
def maxRetries : Nat := 3

/-- `RETRY_CONFIG.baseDelay` in milliseconds (index.js line 21). -/
def baseDelay : Nat := 1000

/-- `RETRY_CONFIG.maxDelay` in milliseconds (index.js line 22). -/
def maxDelay : Nat := 30000

/-- `RETRY_CONFIG.backoffFactor` (index.js line 23). -/
def backoffFactor : Nat := 2

/-- `calculateDelay` (index.js lines 41-44):
`min(baseDelay * backoffFactor ^ (attempt - 1), maxDelay)`. -/
def calculateDelay (attempt : Nat) : Nat :=
  min (baseDelay * backoffFactor ^ (attempt - 1)) maxDelay

/-- Outcome of one underlying token-exchange attempt, before retry logic:
the credential JSON fails to parse, the HTTP exchange returns non-2xx, or a
token is produced. -/
inductive TokenOutcome where
  | parseError (msg : String)
  | httpError (status : Nat) (body : String)
  | ok (token : String)

/-- The body of one `getAccessToken` attempt (index.js lines 106-124): a
parse/signing error propagates as thrown, a non-ok response throws the
`Token exchange failed` message, otherwise the token is returned. -/
def tokenAttemptOnce : TokenOutcome → Except String String
  | .parseError m => .error m
  | .httpError status body =>
      .error ("Token exchange failed: " ++ toString status ++ " - " ++ body)
  | .ok t => .ok t

/-- `getAccessToken` (index.js lines 105-137) over an oracle giving the
outcome of the underlying exchange at each attempt number.  On ANY caught
error it retries while `attempt <= maxRetries`, sleeping `calculateDelay
attempt` first; after the budget it throws the wrapping message.  The second
component accumulates the total sleep time in milliseconds. -/
def getAccessToken (oracle : Nat → TokenOutcome) (attempt : Nat) :
    Except String String × Nat :=
  match tokenAttemptOnce (oracle attempt) with
  | .ok t => (.ok t, 0)
  | .error m =>
    if _h : attempt ≤ maxRetries then
      let d := calculateDelay attempt
      let rest := getAccessToken oracle (attempt + 1)
      (rest.1, d + rest.2)
    else
      (.error ("Failed to get access token after "
        ++ toString (maxRetries + 1) ++ " attempts: " ++ m), 0)
termination_by maxRetries + 1 - attempt
decreasing_by simp only [maxRetries] at *; omega

/-- JS `String.prototype.includes` restricted to what the retry classifiers
use: does `pat` occur as a contiguous substring of `s`? -/
def includesJS (s pat : String) : Bool :=
  s.data.tails.any fun t => pat.data.isPrefixOf t

/-- The retry classifier of `generateItinerary` (index.js lines 407-413):
an error is retryable iff its message contains one of the transport-failure
markers. -/
def isRetryableError (msg : String) : Bool :=
  includesJS msg "Rate limited" || includesJS msg "server error" ||
  includesJS msg "500" || includesJS msg "502" ||
  includesJS msg "503" || includesJS msg "timeout"

/-- Outcome of one underlying OpenAI call, before retry logic: an HTTP error
with its status and body, or a response whose cleaned content either fails
JSON parsing (with the composed diagnostic, content preview folded in) or
parses into a candidate itinerary. -/
inductive ApiOutcome where
  | httpError (status : Nat) (body : String)
  | content (r : Except String (List ItinDay))

/-- The body of one `generateItinerary` attempt (index.js lines 315-401): a
non-ok response throws the rate-limit / server-error / API-error message by
status (lines 341-355), a parse failure throws `JSON parsing failed: ...`
(lines 369-373), and a parsed candidate goes through `validateItinerary`. -/
def generationAttemptOnce (durationDays : Nat) : ApiOutcome → Except String (List ItinDay)
  | .httpError status body =>
      if status = 429 then
        .error ("Rate limited by OpenAI API: " ++ body)
      else if 500 ≤ status then
        .error ("OpenAI server error: " ++ toString status ++ " - " ++ body)
      else
        .error ("OpenAI API error: " ++ toString status ++ " - " ++ body)
  | .content (.error pm) => .error ("JSON parsing failed: " ++ pm)
  | .content (.ok it) => validateItinerary it durationDays

/-- `generateItinerary` (index.js lines 313-424) over an oracle giving the
outcome of the underlying API call at each attempt number: retries with
backoff only while `attempt <= maxRetries` AND the caught message is
classified retryable; otherwise throws the wrapped
`Failed to generate itinerary after N attempts` message.  The second
component accumulates the total sleep time. -/
def generateItinerary (oracle : Nat → ApiOutcome) (durationDays : Nat)
    (attempt : Nat) : Except String (List ItinDay) × Nat :=
  match generationAttemptOnce durationDays (oracle attempt) with
  | .ok v => (.ok v, 0)
  | .error m =>
    if _h : attempt ≤ maxRetries ∧ isRetryableError m then
      let d := calculateDelay attempt
      let rest := generateItinerary oracle durationDays (attempt + 1)
      (rest.1, d + rest.2)
    else
      (.error ("Failed to generate itinerary after " ++ toString attempt
        ++ " attempts: " ++ m), 0)
termination_by maxRetries + 1 - attempt
decreasing_by simp only [maxRetries] at *; omega

/-- An exchange oracle that fails with HTTP 500 then HTTP 503 and then
delivers a token: the "fails twice, then succeeds" scenario. -/
def failTwiceOracle : Nat → TokenOutcome
  | 1 => .httpError 500 "x"
  | 2 => .httpError 503 "y"
  | _ => .ok "tok"

/-- An exchange oracle whose first attempt hits malformed credential
material (`JSON.parse` throws) and which would succeed afterwards. -/
def badCredentialOracle : Nat → TokenOutcome
  | 1 => .parseError "Unexpected token o in JSON"
  | _ => .ok "tok"

/-- An exchange oracle whose first attempt gets an HTTP 400 response and
which would succeed afterwards. -/
def badRequestOracle : Nat → TokenOutcome
  | 1 => .httpError 400 "invalid_grant"
  | _ => .ok "tok"

/-- An exchange oracle that always fails with malformed credentials. -/
def alwaysParseErrorOracle : Nat → TokenOutcome
  | _ => .parseError "bad json"

/-- C5 counterexample: the claim says malformed-input errors and non-429 4xx
responses are propagated without retry, but `getAccessToken` retries them:
after a credential-parse failure (resp. an HTTP 400) on attempt 1 it sleeps
1000 ms and succeeds on attempt 2 instead of propagating the error. -/
theorem C5_counterexample :
    getAccessToken badCredentialOracle 1 = (.ok "tok", 1000)
      ∧ getAccessToken badRequestOracle 1 = (.ok "tok", 1000) := by
  constructor
  · rw [getAccessToken, getAccessToken]
    norm_num [badCredentialOracle, tokenAttemptOnce, calculateDelay,
      maxRetries, baseDelay, maxDelay, backoffFactor]
  · rw [getAccessToken, getAccessToken]
    norm_num [badRequestOracle, tokenAttemptOnce, calculateDelay,
      maxRetries, baseDelay, maxDelay, backoffFactor]

/-- C5 (amended): `getAccessToken` applies no retryability classification at
all — EVERY failure, of any kind, is retried (after the backoff delay) while
attempts remain within the budget. -/
theorem C5_retries_every_failure :
    ∀ (oracle : Nat → TokenOutcome) (k : Nat) (m : String),
      tokenAttemptOnce (oracle k) = .error m → k ≤ maxRetries →
      getAccessToken oracle k
        = ((getAccessToken oracle (k + 1)).1,
            calculateDelay k + (getAccessToken oracle (k + 1)).2) := by
  intro oracle k m hm hk
  rw [getAccessToken, hm]
  simp only [dif_pos hk]

/-- C5 witness: a credential-parse failure at attempt 1 is retried. -/
theorem C5_retries_every_failure_witness :
    getAccessToken alwaysParseErrorOracle 1
      = ((getAccessToken alwaysParseErrorOracle 2).1,
          calculateDelay 1 + (getAccessToken alwaysParseErrorOracle 2).2) :=
  C5_retries_every_failure alwaysParseErrorOracle 1 "bad json" rfl (by decide)

/-- C7: the backoff delay before retrying attempt `k+1` is exactly
`min(baseDelay * backoffFactor ^ k, maxDelay)` with no jitter, and an
operation (here the token exchange) that fails twice then succeeds under
`maxRetries = 3` returns the success result with a total suspension time of
exactly 1000 + 2000 = 3000 ms. -/
theorem C7_backoff_delay :
    (∀ k : Nat, calculateDelay (k + 1) = min (1000 * 2 ^ k) 30000)
      ∧ getAccessToken failTwiceOracle 1 = (.ok "tok", 3000) := by
  constructor
  · intro k
    simp [calculateDelay, baseDelay, backoffFactor, maxDelay]
  · rw [getAccessToken, getAccessToken, getAccessToken]
    norm_num [failTwiceOracle, tokenAttemptOnce, calculateDelay,
      maxRetries, baseDelay, maxDelay, backoffFactor]

/-- An OpenAI oracle whose first attempt yields unparseable content and whose
later attempts would yield a fully valid one-day itinerary. -/
def parseFailThenGoodOracle : Nat → ApiOutcome
  | 1 => .content (.error "Unexpected token o in JSON at position 1")
  | _ => .content (.ok oneDayItinerary)

/-- An OpenAI oracle that always returns unparseable content. -/
def alwaysParseFailOracle : Nat → ApiOutcome
  | _ => .content (.error "Unexpected end of input")

/-- An OpenAI oracle that always returns the parsed day-gap candidate. -/
def alwaysGapOracle : Nat → ApiOutcome
  | _ => .content (.ok gapDayItinerary)

/-- C3 counterexample: the claim says a parse failure with retry budget left
causes the model to be invoked again, but `generateItinerary` propagates the
wrapped parse error from attempt 1 with zero suspension time even though
attempt 2 would have produced a valid itinerary — the classifier
`isRetryableError` does not match parse failures. -/
theorem C3_counterexample :
    generateItinerary parseFailThenGoodOracle 1 1
      = (.error ("Failed to generate itinerary after 1 attempts: "
          ++ "JSON parsing failed: Unexpected token o in JSON at position 1"), 0) := by
  rw [generateItinerary]
  have hcls : isRetryableError
      "JSON parsing failed: Unexpected token o in JSON at position 1" = false := by
    decide
  simp [parseFailThenGoodOracle, generationAttemptOnce, hcls]
  decide

/-- C3 (amended): parse failures and validation failures are NOT retried at
the generation level: whenever an attempt fails with a message the
transport-marker classifier rejects, `generateItinerary` immediately
propagates the wrapped error without invoking the model again. -/
theorem C3_content_failures_not_retried :
    (∀ (oracle : Nat → ApiOutcome) (n k : Nat) (pm : String),
        oracle k = .content (.error pm) →
        isRetryableError ("JSON parsing failed: " ++ pm) = false →
        generateItinerary oracle n k
          = (.error ("Failed to generate itinerary after " ++ toString k
              ++ " attempts: " ++ ("JSON parsing failed: " ++ pm)), 0))
    ∧ (∀ (oracle : Nat → ApiOutcome) (n k : Nat) (it : List ItinDay) (vm : String),
        oracle k = .content (.ok it) →
        validateItinerary it n = .error vm →
        isRetryableError vm = false →
        generateItinerary oracle n k
          = (.error ("Failed to generate itinerary after " ++ toString k
              ++ " attempts: " ++ vm), 0)) := by
  constructor
  · intro oracle n k pm ho hcls
    rw [generateItinerary, ho]
    simp [generationAttemptOnce, hcls]
  · intro oracle n k it vm ho hval hcls
    rw [generateItinerary, ho]
    simp [generationAttemptOnce, hval, hcls]

/-- C3 witness: a concrete parse failure and a concrete day-sequence
validation failure are both propagated unretried. -/
theorem C3_content_failures_not_retried_witness :
    generateItinerary alwaysParseFailOracle 1 1
        = (.error ("Failed to generate itinerary after " ++ toString 1
            ++ " attempts: " ++ ("JSON parsing failed: " ++ "Unexpected end of input")), 0)
      ∧ generateItinerary alwaysGapOracle 2 1
        = (.error ("Failed to generate itinerary after " ++ toString 1
            ++ " attempts: " ++ "Day sequence error: expected day 2, got day 3"), 0) :=
  ⟨C3_content_failures_not_retried.1 alwaysParseFailOracle 1 1
      "Unexpected end of input" rfl (by decide),
   C3_content_failures_not_retried.2 alwaysGapOracle 2 1 gapDayItinerary
      "Day sequence error: expected day 2, got day 3" rfl (by rfl) (by decide)⟩

/-! ### Terminal writes and the background task (index.js lines 186-257, 427-477) -/

/-- The `data` argument passed to `updateFirestoreDocument`: a status, an
itinerary that is either an array or `null`, and an error that is either a
string or `null` (`completedAt` is always a fresh timestamp and is not
tracked here). -/
structure UpdateData where
  status : String
  itinerary : Option (List ItinDay)
  error : Option String

/-- The fields of the PATCH body built by `updateFirestoreDocument`
(index.js lines 192-227).  `none` in the outer option means the field is
absent from the patch (left untouched by the partial update); `some none`
means the field is explicitly written as `nullValue`. -/
structure PatchFields where
  status : String
  itinerary : Option (Option (List ItinDay))
  error : Option (Option String)
deriving DecidableEq

/-- `updateFirestoreDocument`'s construction of the patch (index.js lines
192-227): always writes `status`; if `data.itinerary` is truthy (a JS array,
so any non-null array) it writes the itinerary and `error = null`; if
`data.error` is truthy (a non-empty string) it writes the error and
`itinerary = null`. -/
def buildPatch (d : UpdateData) : PatchFields :=
  let p0 : PatchFields := { status := d.status, itinerary := none, error := none }
  let p1 :=
    match d.itinerary with
    | some it => { p0 with itinerary := some (some it), error := some none }
    | none => p0
  match d.error with
  | some e => if e ≠ "" then { p1 with error := some (some e), itinerary := some none } else p1
  | none => p1

/-- The success-path update data (index.js lines 446-451). -/
def completedData (it : List ItinDay) : UpdateData :=
  { status := "completed", itinerary := some it, error := none }

/-- The failure-path update data (index.js lines 465-470); the written error
string is `"Generation failed: " ++ message`. -/
def failedData (m : String) : UpdateData :=
  { status := "failed", itinerary := none, error := some ("Generation failed: " ++ m) }

/-- The job-document state relevant to the C1 invariant. -/
structure JobState where
  status : String
  itinerary : Option (List ItinDay)
  error : Option String

/-- Applying a partial PATCH to a document: absent fields keep their current
value. -/
def applyPatch (s : JobState) (p : PatchFields) : JobState :=
  { status := p.status,
    itinerary := p.itinerary.getD s.itinerary,
    error := p.error.getD s.error }

/-- The document created by `createFirestoreDocument` at submission (index.js
lines 634-642): `status = processing`, itinerary and error `null`. -/
def initialJobState : JobState :=
  { status := "processing", itinerary := none, error := none }

/-- Environment of one `processItineraryGeneration` run: the outcome of
`JSON.parse(serviceAccountKey)`, of the initial `getAccessToken`, of
`generateItinerary`, of each `updateFirestoreDocument` call in order of
occurrence, and of the token re-acquisition inside the catch block. -/
structure ProcEnv where
  saParse : Except String Unit
  token1 : Except String String
  gen : Except String (List ItinDay)
  updateRes : Nat → Except String Unit
  token2 : Except String String

/-- `processItineraryGeneration` (index.js lines 427-477), modelled as the
ordered list of patches that were SUCCESSFULLY written to the job document.
Control flow follows the source exactly: the try-block parses the service
account, acquires a token, generates, and writes the `completed` patch; any
thrown error reaches the catch block, which re-acquires a token only when
`accessToken` is still null and `serviceAccount` parsed, and then attempts
the `failed` patch carrying the caught message; a failure inside the catch
block writes nothing. -/
def processItineraryGeneration (env : ProcEnv) : List PatchFields :=
  match env.saParse with
  | .error _ => []
  | .ok _ =>
    match env.token1 with
    | .error m =>
      match env.token2 with
      | .error _ => []
      | .ok _ =>
        match env.updateRes 0 with
        | .ok _ => [buildPatch (failedData m)]
        | .error _ => []
    | .ok _ =>
      match env.gen with
      | .error m =>
        match env.updateRes 0 with
        | .ok _ => [buildPatch (failedData m)]
        | .error _ => []
      | .ok it =>
        match env.updateRes 0 with
        | .ok _ => [buildPatch (completedData it)]
        | .error m2 =>
          match env.updateRes 1 with
          | .ok _ => [buildPatch (failedData m2)]
          | .error _ => []

/-- Exactly one of `{itinerary non-null, error non-null}`. -/
def exactlyOneTerminalField (s : JobState) : Prop :=
  (s.itinerary.isSome ∧ s.error = none) ∨ (s.itinerary = none ∧ s.error.isSome)

theorem generationFailed_msg_ne_empty (m : String) :
    ("Generation failed: " ++ m) ≠ "" := by
  intro h
  have hl := congrArg String.length h
  rw [String.length_append] at hl
  have h19 : ("Generation failed: " : String).length = 19 := rfl
  have h0 : ("" : String).length = 0 := rfl
  rw [h19, h0] at hl
  omega

theorem buildPatch_failedData (m : String) :
    buildPatch (failedData m)
      = { status := "failed", itinerary := some none,
          error := some (some ("Generation failed: " ++ m)) } := by
  simp [buildPatch, failedData, generationFailed_msg_ne_empty m]

theorem buildPatch_completedData (it : List ItinDay) :
    buildPatch (completedData it)
      = { status := "completed", itinerary := some (some it), error := some none } := by
  simp [buildPatch, completedData]

/-- C1: every patch the background task successfully writes carries a
terminal status (`completed` or `failed`), the resulting document satisfies
the exactly-one-of-{itinerary, error} invariant, and at most one successful
write ever occurs — so the only transitions are `processing → completed` and
`processing → failed`, and a terminal status is never overwritten. -/
theorem C1_terminal_invariant :
    ∀ (env : ProcEnv),
      (processItineraryGeneration env).length ≤ 1
      ∧ ∀ p ∈ processItineraryGeneration env,
          (p.status = "completed" ∨ p.status = "failed")
          ∧ exactlyOneTerminalField (applyPatch initialJobState p) := by
  intro env
  obtain ⟨sa, t1, gen, upd, t2⟩ := env
  have hfail : ∀ m, ((buildPatch (failedData m)).status = "completed"
        ∨ (buildPatch (failedData m)).status = "failed")
      ∧ exactlyOneTerminalField (applyPatch initialJobState (buildPatch (failedData m))) := by
    intro m
    rw [buildPatch_failedData]
    exact ⟨Or.inr rfl, Or.inr ⟨rfl, rfl⟩⟩
  have hcomp : ∀ it, ((buildPatch (completedData it)).status = "completed"
        ∨ (buildPatch (completedData it)).status = "failed")
      ∧ exactlyOneTerminalField (applyPatch initialJobState (buildPatch (completedData it))) := by
    intro it
    rw [buildPatch_completedData]
    exact ⟨Or.inl rfl, Or.inl ⟨rfl, rfl⟩⟩
  simp only [processItineraryGeneration]
  rcases sa with m0 | u
  · simp
  rcases t1 with m1 | tok
  · rcases t2 with m2 | tok2
    · simp
    · rcases h0 : upd 0 with me | u0 <;> simp [hfail m1]
  · rcases gen with mg | it
    · rcases h0 : upd 0 with me | u0 <;> simp [hfail mg]
    · rcases h0 : upd 0 with me | u0
      · rcases h1 : upd 1 with me1 | u1 <;> simp [hfail me]
      · simp [hcomp it]

/-- A fully successful background run environment. -/
def allOkEnv : ProcEnv :=
  { saParse := .ok ()
    token1 := .ok "tok"
    gen := .ok oneDayItinerary
    updateRes := fun _ => .ok ()
    token2 := .ok "tok" }

/-- C1 witness: in a fully successful run exactly one write occurs, it is the
`completed` write, and it satisfies the invariant. -/
theorem C1_terminal_invariant_witness :
    (processItineraryGeneration allOkEnv).length ≤ 1
      ∧ ((buildPatch (completedData oneDayItinerary)).status = "completed"
          ∨ (buildPatch (completedData oneDayItinerary)).status = "failed")
      ∧ exactlyOneTerminalField
          (applyPatch initialJobState (buildPatch (completedData oneDayItinerary))) :=
  ⟨(C1_terminal_invariant allOkEnv).1,
   (C1_terminal_invariant allOkEnv).2 (buildPatch (completedData oneDayItinerary))
     (by simp [processItineraryGeneration, allOkEnv])⟩

/-! ### Firestore wire marshalling (index.js lines 146-154, 192-227, 480-505) -/

/-- A JavaScript value as it appears in a Job document: `null`, an integer
number, a string, a `Date` (carried by its ISO-8601 rendering, which is all
`toISOString` exposes to the wire), an array, or a plain object. -/
inductive JVal where
  | jnull
  | jint (n : Int)
  | jstr (s : String)
  | jdate (iso : String)
  | jarr (xs : List JVal)
  | jobj (fs : List (String × JVal))

/-- A Firestore typed value as this code reads and writes it: the six wire
constructors that `createFirestoreDocument` / `updateFirestoreDocument` emit
and `convertFromFirestoreFormat` recognises.  `integerValue` carries the
decimal string the code produces with `.toString()`. -/
inductive FireVal where
  | stringValue (s : String)
  | integerValue (s : String)
  | timestampValue (s : String)
  | nullValue
  | arrayValue (vs : List FireVal)
  | mapValue (fs : List (String × FireVal))

/-- The decimal digit character for `d` (`d ≥ 10` never occurs on calls the
code makes; the final branch returns `'9'`). -/
def digitChar (d : Nat) : Char :=
  if d = 0 then '0' else if d = 1 then '1' else if d = 2 then '2'
  else if d = 3 then '3' else if d = 4 then '4' else if d = 5 then '5'
  else if d = 6 then '6' else if d = 7 then '7' else if d = 8 then '8' else '9'

/-- The numeric value of a decimal digit character. -/
def digitVal (c : Char) : Nat := c.toNat - 48

/-- Little-endian decimal digits of a natural number. -/
def natDigitsRev (n : Nat) : List Char :=
  if _h : n < 10 then [digitChar n]
  else digitChar (n % 10) :: natDigitsRev (n / 10)
termination_by n
decreasing_by exact Nat.div_lt_self (by omega) (by omega)

/-- JS `Number.prototype.toString` on the integers this code serialises
(`durationDays`, `day`): canonical decimal, `-` prefix when negative. -/
def toStringJS (n : Int) : String :=
  if n < 0 then ⟨'-' :: (natDigitsRev n.natAbs).reverse⟩
  else ⟨(natDigitsRev n.natAbs).reverse⟩

/-- Value of a big-endian decimal digit list. -/
def parseDigits (cs : List Char) : Nat :=
  cs.foldl (fun a c => a * 10 + digitVal c) 0

/-- JS `parseInt` on the canonical decimal strings this writer produces
(the only strings the reader ever receives in `integerValue`). -/
def parseIntJS (s : String) : Int :=
  match s.data with
  | [] => 0
  | c :: cs => if c = '-' then -(parseDigits cs : Int) else parseDigits (c :: cs)

theorem digitVal_digitChar : ∀ d < 10, digitVal (digitChar d) = d := by decide

theorem digitChar_ne_dash (d : Nat) : digitChar d ≠ '-' := by
  unfold digitChar
  repeat' split
  all_goals decide

theorem natDigitsRev_mem (n : Nat) : ∀ c ∈ natDigitsRev n, ∃ d, c = digitChar d := by
  induction n using Nat.strong_induction_on with
  | _ n ih =>
    rw [natDigitsRev]
    split
    · intro c hc
      simp at hc
      exact ⟨n, hc⟩
    · intro c hc
      rcases List.mem_cons.mp hc with h | h
      · exact ⟨n % 10, h⟩
      · exact ih (n / 10) (Nat.div_lt_self (by omega) (by omega)) c h

theorem natDigitsRev_ne_nil (n : Nat) : natDigitsRev n ≠ [] := by
  rw [natDigitsRev]
  split <;> simp

theorem parseDigits_natDigitsRev (n : Nat) :
    parseDigits (natDigitsRev n).reverse = n := by
  induction n using Nat.strong_induction_on with
  | _ n ih =>
    rw [natDigitsRev]
    split
    · next h =>
      simp [parseDigits, digitVal_digitChar n h]
    · next h =>
      rw [List.reverse_cons]
      have ihd := ih (n / 10) (Nat.div_lt_self (by omega) (by omega))
      unfold parseDigits at ihd ⊢
      rw [List.foldl_append, ihd]
      simp [digitVal_digitChar (n % 10) (Nat.mod_lt n (by omega))]
      omega

theorem parseIntJS_toStringJS (n : Int) : parseIntJS (toStringJS n) = n := by
  rcases hrev : (natDigitsRev n.natAbs).reverse with _ | ⟨c, cs⟩
  · exact absurd (List.reverse_eq_nil_iff.mp hrev) (natDigitsRev_ne_nil _)
  have hcd : ∃ d, c = digitChar d := by
    apply natDigitsRev_mem n.natAbs
    rw [← List.mem_reverse, hrev]
    exact List.mem_cons_self c cs
  have hcne : c ≠ '-' := by
    obtain ⟨d, rfl⟩ := hcd
    exact digitChar_ne_dash d
  have hparse : parseDigits (c :: cs) = n.natAbs := by
    rw [← hrev]; exact parseDigits_natDigitsRev n.natAbs
  by_cases hneg : n < 0
  · rw [toStringJS, if_pos hneg]
    show parseIntJS ⟨'-' :: (natDigitsRev n.natAbs).reverse⟩ = n
    simp only [parseIntJS]
    rw [if_pos trivial, parseDigits_natDigitsRev]
    omega
  · rw [toStringJS, if_neg hneg, hrev]
    simp only [parseIntJS, if_neg hcne]
    rw [hparse]
    omega

mutual
/-- The write-direction mapping the code applies field by field: strings to
`stringValue`, integers to `integerValue` via `.toString()` (index.js lines
149, 201), `Date`s to `timestampValue` via `.toISOString()` (line 150),
`null` to `nullValue`, arrays to `arrayValue`, records to `mapValue`
(lines 146-154, 197-227). -/
def marshalVal : JVal → FireVal
  | .jnull => .nullValue
  | .jint n => .integerValue (toStringJS n)
  | .jstr s => .stringValue s
  | .jdate iso => .timestampValue iso
  | .jarr xs => .arrayValue (marshalList xs)
  | .jobj fs => .mapValue (marshalFields fs)
/-- Write-direction mapping over array elements. -/
def marshalList : List JVal → List FireVal
  | [] => []
  | x :: xs => marshalVal x :: marshalList xs
/-- Write-direction mapping over a record's fields. -/
def marshalFields : List (String × JVal) → List (String × FireVal)
  | [] => []
  | (k, v) :: fs => (k, marshalVal v) :: marshalFields fs
end

mutual
/-- One branch chain of `convertFromFirestoreFormat` (index.js lines
484-501): `stringValue` to string, `integerValue` through `parseInt`,
`timestampValue` to the RAW STRING (line 489 copies `value.timestampValue`
verbatim — no `Date` is reconstructed), `nullValue` to `null`, arrays and
maps recursively. -/
def convertVal : FireVal → JVal
  | .stringValue s => .jstr s
  | .integerValue s => .jint (parseIntJS s)
  | .timestampValue s => .jstr s
  | .nullValue => .jnull
  | .arrayValue vs => .jarr (convertList vs)
  | .mapValue fs => .jobj (convertFromFirestoreFormat fs)
/-- The array-element mapping (index.js lines 493-498): a `mapValue` item
recurses on its fields, any other item goes through the `{temp: item}`
detour; both arms compute `convertVal item` because every wire constructor
this code emits is handled. -/
def convertList : List FireVal → List JVal
  | [] => []
  | item :: rest => convertVal item :: convertList rest
/-- `convertFromFirestoreFormat` (index.js lines 480-505) over the ordered
field list of a document. -/
def convertFromFirestoreFormat : List (String × FireVal) → List (String × JVal)
  | [] => []
  | (k, v) :: rest => (k, convertVal v) :: convertFromFirestoreFormat rest
end

mutual
/-- Whether a value contains no `Date` anywhere (the values on which the
wire conversion actually inverts). -/
def dateFree : JVal → Bool
  | .jnull => true
  | .jint _ => true
  | .jstr _ => true
  | .jdate _ => false
  | .jarr xs => dateFreeList xs
  | .jobj fs => dateFreeFields fs
/-- `dateFree` over array elements. -/
def dateFreeList : List JVal → Bool
  | [] => true
  | x :: xs => dateFree x && dateFreeList xs
/-- `dateFree` over record fields. -/
def dateFreeFields : List (String × JVal) → Bool
  | [] => true
  | (_, v) :: fs => dateFree v && dateFreeFields fs
end

mutual
theorem convert_marshal_val : ∀ (v : JVal), dateFree v = true →
    convertVal (marshalVal v) = v
  | .jnull, _ => rfl
  | .jint n, _ => by
      simp only [marshalVal, convertVal, parseIntJS_toStringJS]
  | .jstr s, _ => rfl
  | .jdate iso, h => by simp [dateFree] at h
  | .jarr xs, h => by
      simp only [marshalVal, convertVal]
      rw [convert_marshal_list xs (by simpa [dateFree] using h)]
  | .jobj fs, h => by
      simp only [marshalVal, convertVal]
      rw [convert_marshal_fields fs (by simpa [dateFree] using h)]
theorem convert_marshal_list : ∀ (xs : List JVal), dateFreeList xs = true →
    convertList (marshalList xs) = xs
  | [], _ => rfl
  | x :: xs, h => by
      simp only [marshalList, convertList]
      have hx : dateFree x = true := by
        simp only [dateFreeList, Bool.and_eq_true] at h; exact h.1
      have hxs : dateFreeList xs = true := by
        simp only [dateFreeList, Bool.and_eq_true] at h; exact h.2
      rw [convert_marshal_val x hx, convert_marshal_list xs hxs]
theorem convert_marshal_fields : ∀ (fs : List (String × JVal)), dateFreeFields fs = true →
    convertFromFirestoreFormat (marshalFields fs) = fs
  | [], _ => rfl
  | (k, v) :: fs, h => by
      simp only [marshalFields, convertFromFirestoreFormat]
      have hv : dateFree v = true := by
        simp only [dateFreeFields, Bool.and_eq_true] at h; exact h.1
      have hfs : dateFreeFields fs = true := by
        simp only [dateFreeFields, Bool.and_eq_true] at h; exact h.2
      rw [convert_marshal_val v hv, convert_marshal_fields fs hfs]
end

/-- The Job document written at creation (index.js lines 146-154), with its
`createdAt` timestamp. -/
def freshJobDoc : List (String × JVal) :=
  [("status", .jstr "processing"),
   ("destination", .jstr "Paris"),
   ("durationDays", .jint 3),
   ("createdAt", .jdate "2025-01-01T00:00:00.000Z"),
   ("completedAt", .jnull),
   ("itinerary", .jnull),
   ("error", .jnull)]

/-- C6 counterexample: marshalling is NOT a two-way isomorphism on Job
documents.  For the freshly created Job document, the `createdAt` `Date` is
written as `timestampValue` and read back as its ISO string — a string, not
a timestamp — so `unmarshal (marshal doc)` differs from `doc`. -/
theorem C6_counterexample :
    convertFromFirestoreFormat (marshalFields freshJobDoc)
      = [("status", .jstr "processing"),
         ("destination", .jstr "Paris"),
         ("durationDays", .jint 3),
         ("createdAt", .jstr "2025-01-01T00:00:00.000Z"),
         ("completedAt", .jnull),
         ("itinerary", .jnull),
         ("error", .jnull)]
    ∧ convertFromFirestoreFormat (marshalFields freshJobDoc) ≠ freshJobDoc := by
  have heval : convertFromFirestoreFormat (marshalFields freshJobDoc)
      = [("status", .jstr "processing"),
         ("destination", .jstr "Paris"),
         ("durationDays", .jint 3),
         ("createdAt", .jstr "2025-01-01T00:00:00.000Z"),
         ("completedAt", .jnull),
         ("itinerary", .jnull),
         ("error", .jnull)] := by
    simp only [freshJobDoc, marshalFields, marshalVal, convertFromFirestoreFormat, convertVal]
    rw [parseIntJS_toStringJS]
  refine ⟨heval, ?_⟩
  rw [heval]
  intro h
  simp [freshJobDoc] at h

/-- C6 (amended): the conversion round-trips exactly on the `Date`-free
fragment — strings, integers, `null`, arrays and nested records all return
to themselves — while every `Date` comes back as its ISO-8601 STRING, and
no boolean wire representation is handled at all (neither side of the
conversion has a boolean branch). -/
theorem C6_roundtrip_dateless :
    (∀ fs : List (String × JVal), dateFreeFields fs = true →
        convertFromFirestoreFormat (marshalFields fs) = fs)
    ∧ (∀ iso : String, convertVal (marshalVal (.jdate iso)) = .jstr iso) := by
  constructor
  · exact convert_marshal_fields
  · intro iso
    simp only [marshalVal, convertVal]

/-- C6 witness: a terminal Job update document (no `Date` field tracked)
round-trips unchanged. -/
theorem C6_roundtrip_dateless_witness :
    convertFromFirestoreFormat (marshalFields
      [("status", .jstr "completed"),
       ("durationDays", .jint 3),
       ("itinerary", .jarr [.jobj [("day", .jint 1), ("theme", .jstr "T1")]]),
       ("error", .jnull)])
      = [("status", .jstr "completed"),
         ("durationDays", .jint 3),
         ("itinerary", .jarr [.jobj [("day", .jint 1), ("theme", .jstr "T1")]]),
         ("error", .jnull)] :=
  C6_roundtrip_dateless.1 _
    (by simp [dateFreeFields, dateFree, dateFreeList])

/-! ### The synchronous POST path of the fetch handler (index.js lines 591-676) -/

/-- A whitespace character as JS `String.prototype.trim` removes it (the
common ASCII set; the exotic Unicode spaces never appear in the inputs
considered here). -/
def isWhitespaceJS (c : Char) : Bool :=
  c = ' ' || c = '\t' || c = '\n' || c = '\r'

/-- JS `String.prototype.trim`: strip leading and trailing whitespace. -/
def trimJS (s : String) : String :=
  ⟨((s.data.dropWhile isWhitespaceJS).reverse.dropWhile isWhitespaceJS).reverse⟩

/-- The JS value of a request-body field, restricted to what the validation
branches distinguish: a string, a number (carried as a rational so that
`Number.isInteger` is expressible), or any other value (null, undefined,
boolean, object, array) — for those the `typeof` checks force the 400 path
whatever their truthiness. -/
inductive JField where
  | fstr (s : String)
  | fnum (q : ℚ)
  | fother

/-- The destructured request body (index.js line 595). -/
structure ReqBody where
  destination : JField
  durationDays : JField

/-- The Job document written by `createFirestoreDocument` at submission
(index.js lines 634-642): `status = processing`, trimmed destination, the
duration, `itinerary`, `error` and `completedAt` null. -/
structure CreatedDoc where
  id : String
  status : String
  destination : String
  durationDays : ℚ
  itinerary : Option Unit
  error : Option String

/-- Outcome of the synchronous part of one POST request: the HTTP status
returned, the job document successfully created (if any), and the jobId
passed to `ctx.waitUntil` (if background generation was scheduled). -/
structure SubmitResult where
  status : Nat
  created : Option CreatedDoc
  scheduled : Option String

/-- The POST path of the `fetch` handler (index.js lines 591-676), from body
parse to response: a parse failure is thrown before validation and lands in
the catch block (500, lines 665-676); destination and duration validation
each return 400 before any write (lines 598-615); missing environment
configuration, a token failure, or a failed `createFirestoreDocument` all
throw into the catch block (500) with no document; only after the create
call returns is `processItineraryGeneration` scheduled via `ctx.waitUntil`
and 202 returned with the jobId (lines 634-663). -/
def handlePost (parsed : Except String ReqBody) (envOk : Bool)
    (tokenRes : Except String String) (createRes : Except String Unit)
    (jobId : String) : SubmitResult :=
  match parsed with
  | .error _ => { status := 500, created := none, scheduled := none }
  | .ok body =>
    match body.destination with
    | .fstr s =>
      if s = "" ∨ (trimJS s).length < 2 then
        { status := 400, created := none, scheduled := none }
      else
        match body.durationDays with
        | .fnum q =>
          if q = 0 ∨ q < 1 ∨ 30 < q ∨ q.den ≠ 1 then
            { status := 400, created := none, scheduled := none }
          else if ¬ envOk then
            { status := 500, created := none, scheduled := none }
          else
            match tokenRes with
            | .error _ => { status := 500, created := none, scheduled := none }
            | .ok _ =>
              match createRes with
              | .error _ => { status := 500, created := none, scheduled := none }
              | .ok _ =>
                { status := 202,
                  created := some
                    { id := jobId, status := "processing",
                      destination := trimJS s, durationDays := q,
                      itinerary := none, error := none },
                  scheduled := some jobId }
        | _ => { status := 400, created := none, scheduled := none }
    | _ => { status := 400, created := none, scheduled := none }

/-- The claim's bad-destination condition: a string whose trimmed length is
below 2. -/
def claimBadDestination : JField → Prop
  | .fstr s => (trimJS s).length < 2
  | _ => False

/-- The claim's bad-duration condition: not an integer in [1,30] (any
non-number value is in particular not an integer). -/
def claimBadDuration : JField → Prop
  | .fnum q => q.den ≠ 1 ∨ q < 1 ∨ 30 < q
  | _ => True

/-- C8: any submission whose destination has trimmed length < 2, or whose
durationDays is not an integer or lies outside [1,30], fails synchronously
with HTTP 400, and no job document is created nor any background task
scheduled. -/
theorem C8_invalid_input_rejected :
    ∀ (b : ReqBody) (envOk : Bool) (tok : Except String String)
      (cr : Except String Unit) (jid : String),
      claimBadDestination b.destination ∨ claimBadDuration b.durationDays →
      handlePost (.ok b) envOk tok cr jid
        = { status := 400, created := none, scheduled := none } := by
  intro b envOk tok cr jid h
  obtain ⟨dest, dur⟩ := b
  rcases dest with s | q | _
  · by_cases hs : s = "" ∨ (trimJS s).length < 2
    · simp [handlePost, hs]
    · have hdur : claimBadDuration dur := by
        rcases h with h | h
        · exact absurd (Or.inr h) hs
        · exact h
      rcases dur with s2 | q | _
      · simp [handlePost, hs]
      · have hq : q = 0 ∨ q < 1 ∨ 30 < q ∨ q.den ≠ 1 := by
          rcases hdur with h1 | h1 | h1
          · exact Or.inr (Or.inr (Or.inr h1))
          · exact Or.inr (Or.inl h1)
          · exact Or.inr (Or.inr (Or.inl h1))
        simp [handlePost, hs, hq]
      · simp [handlePost, hs]
  · simp [handlePost]
  · simp [handlePost]

/-- C8 witness: durationDays = 35 is rejected with 400 and nothing written. -/
theorem C8_invalid_input_rejected_witness :
    handlePost (.ok { destination := .fstr "Paris", durationDays := .fnum 35 })
        true (.ok "tok") (.ok ()) "job-1"
      = { status := 400, created := none, scheduled := none } :=
  C8_invalid_input_rejected
    { destination := .fstr "Paris", durationDays := .fnum 35 }
    true (.ok "tok") (.ok ()) "job-1"
    (Or.inr (Or.inr (Or.inr (by norm_num))))

/-- C9: background generation is scheduled only after the `processing`
document write has completed — whenever a jobId was passed to
`ctx.waitUntil`, the handler's create call succeeded first, the created
document has that very id with `status = processing`, and the response is
202; so a status poll issued after the jobId is returned finds the document
(never "not found"). -/
theorem C9_create_before_schedule :
    ∀ (parsed : Except String ReqBody) (envOk : Bool) (tok : Except String String)
      (cr : Except String Unit) (jid j : String),
      (handlePost parsed envOk tok cr jid).scheduled = some j →
      (handlePost parsed envOk tok cr jid).status = 202
      ∧ cr = .ok ()
      ∧ (handlePost parsed envOk tok cr jid).created.map (fun d => (d.id, d.status))
          = some (j, "processing") := by
  intro parsed envOk tok cr jid j h
  rcases parsed with e | ⟨dest, dur⟩
  · simp [handlePost] at h
  rcases dest with s | q | _
  · by_cases hs : s = "" ∨ (trimJS s).length < 2
    · simp [handlePost, hs] at h
    · rcases dur with s2 | q | _
      · simp [handlePost, hs] at h
      · by_cases hq : q = 0 ∨ q < 1 ∨ 30 < q ∨ q.den ≠ 1
        · simp [handlePost, hs, hq] at h
        · by_cases he : envOk
          · rcases tok with m | t
            · simp [handlePost, hs, hq, he] at h
            · rcases cr with m | u
              · simp [handlePost, hs, hq, he] at h
              · simp [handlePost, hs, hq, he] at h
                subst h
                refine ⟨?_, rfl, ?_⟩ <;> simp [handlePost, hs, hq, he]
          · simp [handlePost, hs, hq, he] at h
      · simp [handlePost, hs] at h
  · simp [handlePost] at h
  · simp [handlePost] at h

/-- C9 witness: a concrete accepted submission schedules its own jobId and
the created document is that jobId's `processing` document. -/
theorem C9_create_before_schedule_witness :
    (handlePost (.ok { destination := .fstr "Paris", durationDays := .fnum 3 })
        true (.ok "tok") (.ok ()) "job-1").status = 202
      ∧ (Except.ok () : Except String Unit) = .ok ()
      ∧ (handlePost (.ok { destination := .fstr "Paris", durationDays := .fnum 3 })
          true (.ok "tok") (.ok ()) "job-1").created.map (fun d => (d.id, d.status))
          = some ("job-1", "processing") :=
  C9_create_before_schedule
    (.ok { destination := .fstr "Paris", durationDays := .fnum 3 })
    true (.ok "tok") (.ok ()) "job-1" "job-1" rfl

/-- C10: a POST whose body is not valid JSON is answered with HTTP 500 (the
parse failure is thrown before input validation and lands in the generic
catch block), not 400, and no job document is created nor any background
task scheduled. -/
theorem C10_bad_json_is_500 :
    ∀ (e : String) (envOk : Bool) (tok : Except String String)
      (cr : Except String Unit) (jid : String),
      handlePost (.error e) envOk tok cr jid
        = { status := 500, created := none, scheduled := none }
      ∧ (500 : Nat) ≠ 400 := by
  intro e envOk tok cr jid
  exact ⟨rfl, by norm_num⟩

end ItineraryWorker
